import Mathlib

/-!
A verification model of the business rule and workflow engine implemented in
`services/business_logic_processor.py`.

The Python source is embedded shallowly:

* Python dicts that preserve insertion order become association lists
  (`alookup` / `dictInsert`).
* `datetime.now()` becomes an explicit `now : Nat` parameter (a day counter;
  day 0 is a Monday, so `weekday = now % 7` and Saturday/Sunday are 5/6,
  matching `datetime.weekday()`).
* The condition strings handed to `eval` in `_evaluate_condition` become the
  expression type `PyExpr`, whose evaluation follows Python semantics for the
  constructs actually used: variable lookup in the merged globals (NameError
  when absent), the comparison operators, short-circuiting `and`/`or`/`not`
  with Python truthiness, and the four registered helper lambdas
  (`is_weekend`, `days_between`, `is_supervisor`, `is_high_value`).
* Numbers are modelled as `Int` (every numeric literal in the rule catalog is
  integral); Python `bool` participates in numeric comparison as 0/1.
* The bare `except Exception` blocks become total functions returning the
  value the handler returns (`False` for `_evaluate_condition`, an error
  record for `_execute_workflow_task`).  An exception raised *inside* the
  `try` of `_execute_workflow_task` by the runtime environment is modelled by
  an explicit oracle `exc : String → Bool` indexed by task id, so that the
  `except` branch (which produces a `'failed'` task result) is reachable in
  the model exactly as it is in the source.
-/

/-- The `WorkflowStatus` enum of the source. -/
inductive WorkflowStatus
  | pending
  | in_progress
  | completed
  | failed
  | cancelled
  | on_hold
deriving DecidableEq, Repr

/-- The `Priority` enum of the source. -/
inductive Priority
  | critical
  | high
  | medium
  | low
deriving DecidableEq, Repr

/-- The `BusinessRuleType` enum of the source. -/
inductive BusinessRuleType
  | validation
  | approval
  | notification
  | automation
  | escalation
deriving DecidableEq, Repr

/-- The `.value` string of a `BusinessRuleType` member. -/
def BusinessRuleType.str : BusinessRuleType → String
  | .validation => "validation"
  | .approval => "approval"
  | .notification => "notification"
  | .automation => "automation"
  | .escalation => "escalation"

/-- A Python scalar as it occurs in evaluation contexts: int (also covering
the integral floats of the rule catalog), str, bool, and date. -/
inductive PyVal
  | int (n : Int)
  | str (s : String)
  | bool (b : Bool)
  | date (d : Nat)
deriving DecidableEq, Repr

/-- Exceptions that `eval` can raise while evaluating a rule condition. -/
inductive PyErr
  | nameErr (n : String)
  | typeErr
deriving DecidableEq, Repr

/-- The comparison operators appearing in rule conditions. -/
inductive CmpOp
  | lt
  | le
  | gt
  | ge
  | eq
  | ne
deriving DecidableEq, Repr

/-- An evaluation context: the `context` dict passed to
`evaluate_business_rule` (insertion-ordered key/value pairs). -/
def Ctx := List (String × PyVal)
deriving DecidableEq, Repr

/-- Ordered-dict lookup (`d[k]` / `k in d`). -/
def alookup {α : Type} (k : String) : List (String × α) → Option α
  | [] => none
  | (k', v) :: rest => if k = k' then some v else alookup k rest

/-- Ordered-dict assignment `d[k] = v`: overwrites in place, appends new keys. -/
def dictInsert {α : Type} (k : String) (v : α) : List (String × α) → List (String × α)
  | [] => [(k, v)]
  | (k', v') :: rest =>
      if k = k' then (k, v) :: rest else (k', v') :: dictInsert k v rest

/-- Dict access with default, `d.get(k, default)`. -/
def ctxGet (ctx : Ctx) (k : String) (dflt : PyVal) : PyVal :=
  (alookup k ctx).getD dflt

/-- Python truthiness (`bool(v)`). -/
def truthy : PyVal → Bool
  | .int n => n != 0
  | .str s => s != ""
  | .bool b => b
  | .date _ => true

/-- The numeric view of a value: Python `bool` is a subtype of `int`. -/
def numOf : PyVal → Option Int
  | .int n => some n
  | .bool b => some (if b then 1 else 0)
  | _ => none

/-- Python `==` on scalars: numeric values (incl. bool) compare by value,
same-type str/date compare by value, cross-type comparison is `False`. -/
def pyEq (a b : PyVal) : Bool :=
  match numOf a, numOf b with
  | some m, some n => m == n
  | _, _ =>
    match a, b with
    | .str s, .str t => s == t
    | .date d, .date e => d == e
    | _, _ => false

/-- Python `str(v)` as used in the handlers' f-strings. -/
def pyStr : PyVal → String
  | .int n => toString n
  | .str s => s
  | .bool b => if b then "True" else "False"
  | .date d => "date-" ++ toString d

/-- A comparison operator on integers. -/
def cmpInt (op : CmpOp) (a b : Int) : Bool :=
  match op with
  | .lt => decide (a < b)
  | .le => decide (a ≤ b)
  | .gt => decide (b < a)
  | .ge => decide (b ≤ a)
  | .eq => a == b
  | .ne => a != b

/-- A comparison operator on strings (Python lexicographic order). -/
def cmpStr (op : CmpOp) (s t : String) : Bool :=
  match op with
  | .lt => compare s t == Ordering.lt
  | .le => compare s t != Ordering.gt
  | .gt => compare s t == Ordering.gt
  | .ge => compare s t != Ordering.lt
  | .eq => s == t
  | .ne => s != t

/-- Python comparison semantics: `==`/`!=` never fail; the order comparisons
work on numbers (bool included), on two strings, or on two dates, and raise
`TypeError` on mixed operands. -/
def cmpVals (op : CmpOp) (a b : PyVal) : Except PyErr PyVal :=
  match op with
  | .eq => .ok (.bool (pyEq a b))
  | .ne => .ok (.bool (!pyEq a b))
  | _ =>
    match numOf a, numOf b with
    | some m, some n => .ok (.bool (cmpInt op m n))
    | _, _ =>
      match a, b with
      | .str s, .str t => .ok (.bool (cmpStr op s t))
      | .date d, .date e => .ok (.bool (cmpInt op d e))
      | _, _ => .error PyErr.typeErr

/-- The fields of `_load_derivco_business_config` that the embedded code
reads. -/
structure BizConfig where
  supervisors : List String
  equipmentValueThreshold : Int
  autoReorderEnabled : Bool
  approvalRequiredCategories : List String
deriving DecidableEq, Repr

/-- The condition language: the fragment of Python expressions that
`_evaluate_condition` hands to `eval` — literals, context variables,
comparisons, short-circuit boolean operators, and the four helper lambdas
installed into the evaluation globals (lines 524-529 of the source). -/
inductive PyExpr
  | lit (v : PyVal)
  | var (name : String)
  | cmp (op : CmpOp) (a b : PyExpr)
  | and (a b : PyExpr)
  | or (a b : PyExpr)
  | not (a : PyExpr)
  | isWeekend
  | isSupervisor (a : PyExpr)
  | isHighValue (a : PyExpr)
  | daysBetween (a b : PyExpr)
deriving DecidableEq, Repr

/-- Evaluation of a condition expression, following Python `eval` semantics:
left-to-right evaluation, `NameError` for a variable missing from the
globals, `and`/`or` short-circuit and return an operand value, `not` returns
a bool.  `is_weekend` reads the clock (`now`), `is_supervisor` and
`is_high_value` read the business configuration, `days_between` takes the
absolute day difference of two dates. -/
def evalExpr (cfg : BizConfig) (now : Nat) : PyExpr → Ctx → Except PyErr PyVal
  | .lit v, _ => .ok v
  | .var n, ctx =>
      match alookup n ctx with
      | some v => .ok v
      | none => .error (.nameErr n)
  | .cmp op a b, ctx =>
      match evalExpr cfg now a ctx with
      | .error e => .error e
      | .ok x =>
        match evalExpr cfg now b ctx with
        | .error e => .error e
        | .ok y => cmpVals op x y
  | .and a b, ctx =>
      match evalExpr cfg now a ctx with
      | .error e => .error e
      | .ok x => if truthy x then evalExpr cfg now b ctx else .ok x
  | .or a b, ctx =>
      match evalExpr cfg now a ctx with
      | .error e => .error e
      | .ok x => if truthy x then .ok x else evalExpr cfg now b ctx
  | .not a, ctx =>
      match evalExpr cfg now a ctx with
      | .error e => .error e
      | .ok x => .ok (.bool (!truthy x))
  | .isWeekend, _ => .ok (.bool (decide (now % 7 ≥ 5)))
  | .isSupervisor a, ctx =>
      match evalExpr cfg now a ctx with
      | .error e => .error e
      | .ok v => .ok (.bool (cfg.supervisors.any (fun s => pyEq v (.str s))))
  | .isHighValue a, ctx =>
      match evalExpr cfg now a ctx with
      | .error e => .error e
      | .ok v =>
        match numOf v with
        | some m => .ok (.bool (decide (cfg.equipmentValueThreshold < m)))
        | none => .error PyErr.typeErr
  | .daysBetween a b, ctx =>
      match evalExpr cfg now a ctx with
      | .error e => .error e
      | .ok x =>
        match evalExpr cfg now b ctx with
        | .error e => .error e
        | .ok y =>
          match x, y with
          | .date d, .date e => .ok (.int (((d : Int) - (e : Int)).natAbs))
          | _, _ => .error PyErr.typeErr

/-- Embedding of `_evaluate_condition` (lines 503-537): evaluate the expression; the
`except Exception` handler turns any evaluation error into `False`; a
successful evaluation is passed through `bool(result)`. -/
def evaluateCondition (cfg : BizConfig) (now : Nat) (e : PyExpr) (ctx : Ctx) : Bool :=
  match evalExpr cfg now e ctx with
  | .ok v => truthy v
  | .error _ => false

/-- An expression is clock-independent when it contains no `is_weekend()`
call — the only construct of the condition language that reads
`datetime.now()`. -/
def noTimeDep : PyExpr → Bool
  | .lit _ => true
  | .var _ => true
  | .cmp _ a b => noTimeDep a && noTimeDep b
  | .and a b => noTimeDep a && noTimeDep b
  | .or a b => noTimeDep a && noTimeDep b
  | .not a => noTimeDep a
  | .isWeekend => false
  | .isSupervisor a => noTimeDep a
  | .isHighValue a => noTimeDep a
  | .daysBetween a b => noTimeDep a && noTimeDep b

/-- The `BusinessRule` dataclass of the source (the `condition` string is
embedded as its parse tree; `created_date` carries the day counter). -/
structure BusinessRule where
  rule_id : String
  rule_name : String
  rule_type : BusinessRuleType
  description : String
  condition : PyExpr
  action : String
  priority : Priority
  enabled : Bool := true
  created_date : Nat := 0
  last_executed : Option Nat := none
  execution_count : Nat := 0
deriving DecidableEq, Repr

/-- The `WorkflowTask` dataclass of the source (the free-form `metadata` dict is
not read by any embedded operation and is omitted). -/
structure WorkflowTask where
  task_id : String
  workflow_id : String
  task_name : String
  task_type : String
  assignee : String
  status : WorkflowStatus
  priority : Priority
  due_date : Option Nat := none
  created_date : Nat := 0
  completed_date : Option Nat := none
  dependencies : List String := []
deriving DecidableEq, Repr

/-- The `ApprovalRequest` dataclass of the source.  `requester`, `approver` and
`justification` hold whatever value `context.get` returns; `item_details`
is the raw lookup of the `item_details` key (`none` models the `{}`
default). -/
structure ApprovalRequest where
  request_id : String
  request_type : String
  requester : PyVal
  approver : PyVal
  item_details : Option PyVal := none
  justification : PyVal
  priority : Priority
  status : String := "pending"
  created_date : Nat := 0
  approved_date : Option Nat := none
  comments : String := ""
deriving DecidableEq, Repr

/-- The result dict built by `evaluate_business_rule`; keys that a given
branch does not set are `none` / default. -/
structure RuleEvalResult where
  rule_id : String
  rule_name : Option String := none
  rule_type : Option String := none
  evaluated : Bool := false
  condition_met : Option Bool := none
  actions_triggered : List String := []
  evaluation_time : Option Nat := none
  context : Ctx := []
  error : Option String := none
  reason : Option String := none
deriving DecidableEq, Repr

/-- The per-task result dict built by `_execute_workflow_task`. -/
structure TaskRunResult where
  task_id : String
  task_name : Option String := none
  task_type : Option String := none
  status : String
  result : Option String := none
  error : Option String := none
deriving DecidableEq, Repr

/-- The execution-result dict built by `execute_workflow`. -/
structure WorkflowRunResult where
  workflow_id : String
  status : String
  tasks_executed : List TaskRunResult := []
  tasks_pending : List TaskRunResult := []
  tasks_failed : List TaskRunResult := []
  error : Option String := none
  context : Ctx := []
deriving DecidableEq, Repr

/-- The mutable state of a `BusinessLogicProcessor` instance: the three
insertion-ordered dicts, the two history lists, and the (constant) business
configuration. -/
structure ProcState where
  business_rules : List (String × BusinessRule)
  workflow_tasks : List (String × WorkflowTask)
  approval_requests : List (String × ApprovalRequest)
  rule_execution_history : List RuleEvalResult
  workflow_history : List WorkflowRunResult
  config : BizConfig
deriving DecidableEq, Repr

/-- Embedding of `_create_approval_request` (lines 587-609).  When called with `None`
(as `_execute_approval_task` can via `business_rules.get('BR001')`), the
attribute access raises inside the `try` and the handler returns an error
string without storing anything.  The random uuid suffix of the request id
is modelled by the current number of stored requests. -/
def createApprovalRequest (st : ProcState) (now : Nat) (rule : Option BusinessRule)
    (ctx : Ctx) : String × ProcState :=
  match rule with
  | none => ("Error: attribute access on None", st)
  | some r =>
      let rid := "APPR_" ++ toString now ++ "_" ++ toString st.approval_requests.length
      let req : ApprovalRequest :=
        { request_id := rid
          request_type := "equipment_approval"
          requester := ctxGet ctx "requester" (.str "unknown")
          approver := ctxGet ctx "approver" (.str "supervisor")
          item_details := alookup "item_details" ctx
          justification := ctxGet ctx "justification"
            (.str ("Triggered by rule: " ++ r.rule_name))
          priority := Priority.high
          created_date := now }
      (rid, { st with approval_requests := dictInsert rid req st.approval_requests })

/-- Embedding of `_execute_rule_action` (lines 539-585): dispatch on the action name.
Only `create_approval_request` changes processor state; the other handlers
log and return a message built from the context. -/
def executeRuleAction (st : ProcState) (now : Nat) (rule : BusinessRule)
    (ctx : Ctx) : List String × ProcState :=
  if rule.action = "create_approval_request" then
    let pr := createApprovalRequest st now (some rule) ctx
    (["Created approval request: " ++ pr.1], pr.2)
  else if rule.action = "send_critical_stock_alert" then
    (["Sent critical stock alert: Alert sent for "
        ++ pyStr (ctxGet ctx "item_name" (.str "Unknown Item"))], st)
  else if rule.action = "escalate_to_supervisor" then
    (["Escalated to supervisor: Escalated to "
        ++ pyStr (ctxGet ctx "supervisor" (.str "Erasmus Ngwane"))], st)
  else if rule.action = "require_valid_work_order" then
    (["Work order validation required: Validation required for transaction "
        ++ pyStr (ctxGet ctx "transaction_id" (.str "Unknown"))], st)
  else if rule.action = "create_purchase_requisition" then
    (["Created purchase requisition: REQ_" ++ toString now ++ "_"
        ++ pyStr (ctxGet ctx "item_code" (.str "Unknown"))], st)
  else if rule.action = "send_compliance_alert" then
    (["Sent compliance alert: Compliance alert sent"], st)
  else if rule.action = "require_bulk_checkout_approval" then
    (["Required bulk checkout approval: BULK_" ++ toString now ++ "_"
        ++ pyStr (ctxGet ctx "requester" (.str "Unknown"))], st)
  else if rule.action = "set_high_priority" then
    (["Set high priority: High priority set for "
        ++ pyStr (ctxGet ctx "request_id" (.str "Unknown"))], st)
  else
    (["Unknown action: " ++ rule.action], st)

/-- Embedding of `evaluate_business_rule` (lines 441-501).  A missing rule id raises a
`ValueError` that the outer handler turns into an error result, leaving the
state untouched; a disabled rule short-circuits; otherwise the condition is
evaluated (`_evaluate_condition` never raises), on `True` the action runs
and the rule statistics are updated, and the result is appended to the rule
execution history. -/
def evaluateBusinessRule (st : ProcState) (now : Nat) (rid : String) (ctx : Ctx) :
    RuleEvalResult × ProcState :=
  match alookup rid st.business_rules with
  | none =>
      ({ rule_id := rid, evaluated := false,
         error := some ("Business rule " ++ rid ++ " not found") }, st)
  | some rule =>
      if rule.enabled then
        let condMet := evaluateCondition st.config now rule.condition ctx
        let base : RuleEvalResult :=
          { rule_id := rid
            rule_name := some rule.rule_name
            rule_type := some rule.rule_type.str
            evaluated := true
            condition_met := some condMet
            evaluation_time := some now
            context := ctx }
        if condMet then
          let pr := executeRuleAction st now rule ctx
          let rule1 := { rule with last_executed := some now,
                                   execution_count := rule.execution_count + 1 }
          let res := { base with actions_triggered := pr.1 }
          let st2 := { pr.2 with business_rules := dictInsert rid rule1 pr.2.business_rules }
          (res, { st2 with rule_execution_history := st2.rule_execution_history ++ [res] })
        else
          (base, { st with rule_execution_history := st.rule_execution_history ++ [base] })
      else
        ({ rule_id := rid, rule_name := some rule.rule_name, evaluated := false,
           reason := some "Rule is disabled" }, st)

/-- The loop body shared by `process_inventory_business_rules`
(lines 770-778) and `process_compliance_business_rules` (lines 830-845):
walk a list of rule ids against one context, skip ids absent from the
catalog, evaluate the rest in order, and collect the results. -/
def processRuleList (st : ProcState) (now : Nat) (ruleIds : List String) (ctx : Ctx) :
    List RuleEvalResult × ProcState :=
  match ruleIds with
  | [] => ([], st)
  | rid :: rest =>
      if (alookup rid st.business_rules).isSome then
        let pr := evaluateBusinessRule st now rid ctx
        let rec2 := processRuleList pr.2 now rest ctx
        (pr.1 :: rec2.1, rec2.2)
      else
        processRuleList st now rest ctx

/-- Embedding of `_execute_workflow_task` (lines 953-1013).  `exc` is true when the
runtime raises inside the `try` block, in which case the `except` handler
returns a `'failed'` record.  The dependency check of lines 964-967 is a
literal `pass` and therefore has no effect.  Approval and procurement tasks
yield a `'pending'` result; the five synchronous task types (and any
unknown type) yield `'completed'`. -/
def executeWorkflowTask (st : ProcState) (now : Nat) (task : WorkflowTask)
    (ctx : Ctx) (exc : Bool) : TaskRunResult × ProcState :=
  if exc then
    ({ task_id := task.task_id, status := "failed",
       error := some ("Error executing task " ++ task.task_id) }, st)
  else
    let base : TaskRunResult :=
      { task_id := task.task_id
        task_name := some task.task_name
        task_type := some task.task_type
        status := "running" }
    if task.task_type = "validation" then
      ({ base with
          status := "completed",
          result := some ("Validation completed for " ++ task.task_name) }, st)
    else if task.task_type = "approval" then
      let pr := createApprovalRequest st now (alookup "BR001" st.business_rules) ctx
      ({ base with
          status := "pending",
          result := some ("Approval request created: " ++ pr.1) }, pr.2)
    else if task.task_type = "data_entry" then
      ({ base with
          status := "completed",
          result := some ("Data entry completed for " ++ task.task_name) }, st)
    else if task.task_type = "scheduling" then
      ({ base with
          status := "completed",
          result := some ("Scheduling completed for " ++ task.task_name) }, st)
    else if task.task_type = "monitoring" then
      ({ base with
          status := "completed",
          result := some ("Monitoring initiated for " ++ task.task_name) }, st)
    else if task.task_type = "documentation" then
      ({ base with
          status := "completed",
          result := some ("Documentation completed for " ++ task.task_name) }, st)
    else if task.task_type = "procurement" then
      ({ base with
          status := "pending",
          result := some ("Procurement initiated for " ++ task.task_name) }, st)
    else
      ({ base with
          status := "completed",
          result := some ("Task type " ++ task.task_type ++ " not implemented") }, st)

/-- Insert a task into a list sorted by ascending dependency count, after
any existing task with the same count (preserving stability, as Python
`sorted` does). -/
def insertByKey (t : WorkflowTask) : List WorkflowTask → List WorkflowTask
  | [] => [t]
  | h :: rest =>
      if t.dependencies.length < h.dependencies.length then t :: h :: rest
      else h :: insertByKey t rest

/-- Embedding of `sorted(workflow_tasks, key=lambda t: len(t.dependencies))` (line 911):
a stable sort by number of dependencies. -/
def sortByDepCount (ts : List WorkflowTask) : List WorkflowTask :=
  ts.foldl (fun acc t => insertByKey t acc) []

/-- The task loop of `execute_workflow` (lines 914-925): run each task in
sorted order; a `'completed'` result marks the stored task `COMPLETED` with
a completion date, a `'failed'` result marks it `FAILED`, anything else
(the `'pending'` results) leaves the stored task untouched. -/
def runTasks (st : ProcState) (now : Nat) (ctx : Ctx) (exc : String → Bool)
    (acc : WorkflowRunResult) : List WorkflowTask → WorkflowRunResult × ProcState
  | [] => (acc, st)
  | task :: rest =>
      let pr := executeWorkflowTask st now task ctx (exc task.task_id)
      if pr.1.status = "completed" then
        let t1 := { task with status := WorkflowStatus.completed,
                              completed_date := some now }
        runTasks { pr.2 with workflow_tasks := dictInsert task.task_id t1 pr.2.workflow_tasks }
          now ctx exc { acc with tasks_executed := acc.tasks_executed ++ [pr.1] } rest
      else if pr.1.status = "failed" then
        let t1 := { task with status := WorkflowStatus.failed }
        runTasks { pr.2 with workflow_tasks := dictInsert task.task_id t1 pr.2.workflow_tasks }
          now ctx exc { acc with tasks_failed := acc.tasks_failed ++ [pr.1] } rest
      else
        runTasks pr.2 now ctx exc
          { acc with tasks_pending := acc.tasks_pending ++ [pr.1] } rest

/-- Embedding of `execute_workflow` (lines 884-951): collect the tasks of the workflow,
fail when there are none, sort them by dependency count, run them, derive
the overall status ('failed' over 'pending' over 'completed'), and append
the result to the workflow history. -/
def executeWorkflow (st : ProcState) (now : Nat) (wid : String) (ctx : Ctx)
    (exc : String → Bool) : WorkflowRunResult × ProcState :=
  let wtasks := (st.workflow_tasks.map Prod.snd).filter (fun t => t.workflow_id = wid)
  if wtasks.isEmpty then
    ({ workflow_id := wid, status := "failed",
       error := some ("No tasks found for workflow " ++ wid), context := ctx }, st)
  else
    let sorted := sortByDepCount wtasks
    let pr := runTasks st now ctx exc
      { workflow_id := wid, status := "running", context := ctx } sorted
    let finalStatus :=
      if pr.1.tasks_failed.isEmpty then
        (if pr.1.tasks_pending.isEmpty then "completed" else "pending")
      else "failed"
    let r2 := { pr.1 with status := finalStatus }
    (r2, { pr.2 with workflow_history := pr.2.workflow_history ++ [r2] })

/-- The state-changing operations of the processor: everything else
(`get_business_logic_summary`, the context builders of the two batch
processors) only reads the state. -/
inductive ProcOp
  | evalRule (now : Nat) (rid : String) (ctx : Ctx)
  | runWorkflow (now : Nat) (wid : String) (ctx : Ctx) (exc : String → Bool)
  | processRules (now : Nat) (ruleIds : List String) (ctx : Ctx)

/-- Apply one operation to the processor state. -/
def applyOp (st : ProcState) : ProcOp → ProcState
  | .evalRule now rid ctx => (evaluateBusinessRule st now rid ctx).2
  | .runWorkflow now wid ctx exc => (executeWorkflow st now wid ctx exc).2
  | .processRules now ids ctx => (processRuleList st now ids ctx).2

/-- Apply a sequence of operations. -/
def applyOps (st : ProcState) : List ProcOp → ProcState
  | [] => st
  | op :: rest => applyOps (applyOp st op) rest

/-- The execution count of a rule in a state (0 when the rule is absent;
no operation ever removes a rule). -/
def execCount (st : ProcState) (rid : String) : Nat :=
  match alookup rid st.business_rules with
  | some r => r.execution_count
  | none => 0

/-- The configuration values of `_load_derivco_business_config` read by the
engine. -/
def defaultConfig : BizConfig :=
  { supervisors := ["Erasmus Ngwane", "Brindley Harrington"]
    equipmentValueThreshold := 1000
    autoReorderEnabled := true
    approvalRequiredCategories := ["Safety", "Access Control"] }

/-- Rule BR001, condition `item_value > 1000`. -/
def ruleBR001 : BusinessRule :=
  { rule_id := "BR001"
    rule_name := "High Value Equipment Approval"
    rule_type := BusinessRuleType.approval
    description := "Equipment over R1000 requires supervisor approval"
    condition := PyExpr.cmp CmpOp.gt (PyExpr.var "item_value") (PyExpr.lit (PyVal.int 1000))
    action := "create_approval_request"
    priority := Priority.high }

/-- Rule BR002, condition `stock_level <= 5`. -/
def ruleBR002 : BusinessRule :=
  { rule_id := "BR002"
    rule_name := "Critical Stock Alert"
    rule_type := BusinessRuleType.notification
    description := "Alert when inventory reaches critical levels"
    condition := PyExpr.cmp CmpOp.le (PyExpr.var "stock_level") (PyExpr.lit (PyVal.int 5))
    action := "send_critical_stock_alert"
    priority := Priority.critical }

/-- Rule BR003, condition `days_overdue >= 7`. -/
def ruleBR003 : BusinessRule :=
  { rule_id := "BR003"
    rule_name := "Overdue Equipment Escalation"
    rule_type := BusinessRuleType.escalation
    description := "Escalate overdue equipment returns"
    condition := PyExpr.cmp CmpOp.ge (PyExpr.var "days_overdue") (PyExpr.lit (PyVal.int 7))
    action := "escalate_to_supervisor"
    priority := Priority.high }

/-- Rule BR004, condition `wo_req_missing or wo_req_invalid`. -/
def ruleBR004 : BusinessRule :=
  { rule_id := "BR004"
    rule_name := "Work Order Validation"
    rule_type := BusinessRuleType.validation
    description := "Validate work order format and requirements"
    condition := PyExpr.or (PyExpr.var "wo_req_missing") (PyExpr.var "wo_req_invalid")
    action := "require_valid_work_order"
    priority := Priority.medium }

/-- Rule BR005, condition `stock_level <= reorder_level and auto_reorder_enabled`. -/
def ruleBR005 : BusinessRule :=
  { rule_id := "BR005"
    rule_name := "Auto Reorder Trigger"
    rule_type := BusinessRuleType.automation
    description := "Automatically trigger reorder for low stock items"
    condition := PyExpr.and
      (PyExpr.cmp CmpOp.le (PyExpr.var "stock_level") (PyExpr.var "reorder_level"))
      (PyExpr.var "auto_reorder_enabled")
    action := "create_purchase_requisition"
    priority := Priority.medium }

/-- Rule BR006, condition `compliance_percentage < 80`. -/
def ruleBR006 : BusinessRule :=
  { rule_id := "BR006"
    rule_name := "Compliance Monitoring"
    rule_type := BusinessRuleType.notification
    description := "Monitor and alert on compliance violations"
    condition := PyExpr.cmp CmpOp.lt (PyExpr.var "compliance_percentage")
      (PyExpr.lit (PyVal.int 80))
    action := "send_compliance_alert"
    priority := Priority.high }

/-- Rule BR007, condition `checkout_quantity > 5`. -/
def ruleBR007 : BusinessRule :=
  { rule_id := "BR007"
    rule_name := "Bulk Checkout Approval"
    rule_type := BusinessRuleType.approval
    description := "Bulk equipment checkout requires approval"
    condition := PyExpr.cmp CmpOp.gt (PyExpr.var "checkout_quantity") (PyExpr.lit (PyVal.int 5))
    action := "require_bulk_checkout_approval"
    priority := Priority.medium }

/-- Rule BR008, condition `category == 'Safety'`. -/
def ruleBR008 : BusinessRule :=
  { rule_id := "BR008"
    rule_name := "Safety Equipment Priority"
    rule_type := BusinessRuleType.automation
    description := "Prioritize safety equipment requests"
    condition := PyExpr.cmp CmpOp.eq (PyExpr.var "category") (PyExpr.lit (PyVal.str "Safety"))
    action := "set_high_priority"
    priority := Priority.high }

/-- A pending workflow task, as `_create_*_workflow` builds them. -/
def mkTask (tid wid name ty assignee : String) (prio : Priority)
    (deps : List String) : WorkflowTask :=
  { task_id := tid
    workflow_id := wid
    task_name := name
    task_type := ty
    assignee := assignee
    status := WorkflowStatus.pending
    priority := prio
    dependencies := deps }

/-- The tasks of `_create_equipment_checkout_workflow`. -/
def equipmentCheckoutTasks : List WorkflowTask :=
  [ mkTask "WF_EQUIPMENT_CHECKOUT_001" "WF_EQUIPMENT_CHECKOUT" "Validate Equipment Request"
      "validation" "system" Priority.high []
  , mkTask "WF_EQUIPMENT_CHECKOUT_002" "WF_EQUIPMENT_CHECKOUT" "Check Work Order"
      "validation" "system" Priority.high ["WF_EQUIPMENT_CHECKOUT_001"]
  , mkTask "WF_EQUIPMENT_CHECKOUT_003" "WF_EQUIPMENT_CHECKOUT" "Approve High Value Items"
      "approval" "supervisor" Priority.medium ["WF_EQUIPMENT_CHECKOUT_002"]
  , mkTask "WF_EQUIPMENT_CHECKOUT_004" "WF_EQUIPMENT_CHECKOUT" "Record Equipment Checkout"
      "data_entry" "facilities_assistant" Priority.high ["WF_EQUIPMENT_CHECKOUT_003"]
  , mkTask "WF_EQUIPMENT_CHECKOUT_005" "WF_EQUIPMENT_CHECKOUT" "Schedule Return Reminder"
      "scheduling" "system" Priority.low ["WF_EQUIPMENT_CHECKOUT_004"] ]

/-- Task 1 of `_create_inventory_reorder_workflow` (no dependencies). -/
def taskREO1 : WorkflowTask :=
  mkTask "WF_INVENTORY_REORDER_001" "WF_INVENTORY_REORDER" "Monitor Stock Levels"
    "monitoring" "system" Priority.medium []

/-- Task 2 of `_create_inventory_reorder_workflow` (depends on task 1). -/
def taskREO2 : WorkflowTask :=
  mkTask "WF_INVENTORY_REORDER_002" "WF_INVENTORY_REORDER" "Generate Purchase Requisition"
    "documentation" "facilities_assistant" Priority.high ["WF_INVENTORY_REORDER_001"]

/-- Task 3 of `_create_inventory_reorder_workflow`: the "Budget Approval"
approval task (depends on task 2). -/
def taskREO3 : WorkflowTask :=
  mkTask "WF_INVENTORY_REORDER_003" "WF_INVENTORY_REORDER" "Budget Approval"
    "approval" "finance_manager" Priority.high ["WF_INVENTORY_REORDER_002"]

/-- Task 4 of `_create_inventory_reorder_workflow`: the procurement task
(depends on task 3). -/
def taskREO4 : WorkflowTask :=
  mkTask "WF_INVENTORY_REORDER_004" "WF_INVENTORY_REORDER" "Submit Purchase Order"
    "procurement" "procurement_team" Priority.medium ["WF_INVENTORY_REORDER_003"]

/-- Task 5 of `_create_inventory_reorder_workflow` (depends on task 4). -/
def taskREO5 : WorkflowTask :=
  mkTask "WF_INVENTORY_REORDER_005" "WF_INVENTORY_REORDER" "Update Inventory Records"
    "data_entry" "facilities_assistant" Priority.high ["WF_INVENTORY_REORDER_004"]

/-- The tasks of `_create_inventory_reorder_workflow`. -/
def inventoryReorderTasks : List WorkflowTask :=
  [taskREO1, taskREO2, taskREO3, taskREO4, taskREO5]

/-- The tasks of `_create_compliance_remediation_workflow`. -/
def complianceRemediationTasks : List WorkflowTask :=
  [ mkTask "WF_COMPLIANCE_REMEDIATION_001" "WF_COMPLIANCE_REMEDIATION" "Identify Compliance Gaps"
      "analysis" "system" Priority.high []
  , mkTask "WF_COMPLIANCE_REMEDIATION_002" "WF_COMPLIANCE_REMEDIATION" "Create Remediation Plan"
      "planning" "facilities_manager" Priority.high ["WF_COMPLIANCE_REMEDIATION_001"]
  , mkTask "WF_COMPLIANCE_REMEDIATION_003" "WF_COMPLIANCE_REMEDIATION" "Implement Corrections"
      "execution" "facilities_team" Priority.critical ["WF_COMPLIANCE_REMEDIATION_002"]
  , mkTask "WF_COMPLIANCE_REMEDIATION_004" "WF_COMPLIANCE_REMEDIATION" "Verify Compliance"
      "verification" "compliance_officer" Priority.high ["WF_COMPLIANCE_REMEDIATION_003"]
  , mkTask "WF_COMPLIANCE_REMEDIATION_005" "WF_COMPLIANCE_REMEDIATION" "Document Resolution"
      "documentation" "facilities_assistant" Priority.medium ["WF_COMPLIANCE_REMEDIATION_004"] ]

/-- The processor state right after `__init__`: the eight default business
rules and the fifteen tasks of the three standard workflows, all stored in
insertion order; empty approval and history stores. -/
def initState : ProcState :=
  { business_rules :=
      [ ("BR001", ruleBR001), ("BR002", ruleBR002), ("BR003", ruleBR003)
      , ("BR004", ruleBR004), ("BR005", ruleBR005), ("BR006", ruleBR006)
      , ("BR007", ruleBR007), ("BR008", ruleBR008) ]
    workflow_tasks :=
      (equipmentCheckoutTasks ++ inventoryReorderTasks ++ complianceRemediationTasks).map
        (fun t => (t.task_id, t))
    approval_requests := []
    rule_execution_history := []
    workflow_history := []
    config := defaultConfig }

/-- The trivial exception oracle: the runtime raises nothing. -/
def noExc : String → Bool := fun _ => false

/-- An exception oracle under which the runtime raises inside the `try` of
`_execute_workflow_task` for the first inventory-reorder task, making its
`except` handler return a `'failed'` record. -/
def failMonitor : String → Bool := fun tid => tid = "WF_INVENTORY_REORDER_001"

/-- A normal run of the inventory-reorder workflow on the freshly
initialised processor. -/
def reorderRun : WorkflowRunResult × ProcState :=
  executeWorkflow initState 0 "WF_INVENTORY_REORDER" [] noExc

/-- A run of the inventory-reorder workflow in which the first task fails. -/
def reorderFailRun : WorkflowRunResult × ProcState :=
  executeWorkflow initState 0 "WF_INVENTORY_REORDER" [] failMonitor

/-- A workflow template whose two tasks form a dependency cycle
(`CYC_A` depends on `CYC_B` and `CYC_B` depends on `CYC_A`), stored into the
task dict exactly the way the `_create_*_workflow` helpers store templates:
plain dict insertion, with no validation of any kind in between. -/
def cycState : ProcState :=
  { initState with
      workflow_tasks := initState.workflow_tasks ++
        [ ("CYC_A", mkTask "CYC_A" "WF_CYCLE" "Cycle Task A" "validation" "system"
            Priority.high ["CYC_B"])
        , ("CYC_B", mkTask "CYC_B" "WF_CYCLE" "Cycle Task B" "validation" "system"
            Priority.high ["CYC_A"]) ] }

/-- Execution of the cyclic workflow template. -/
def cycRun : WorkflowRunResult × ProcState :=
  executeWorkflow cycState 0 "WF_CYCLE" [] noExc

/-- A business rule whose condition is the bare predicate call
`is_weekend()` — a legal condition string for the evaluator, since rule
conditions are arbitrary expressions over the evaluation globals. -/
def wkRule : BusinessRule :=
  { rule_id := "BRW"
    rule_name := "Weekend Rule"
    rule_type := BusinessRuleType.notification
    description := "Fires on weekends"
    condition := PyExpr.isWeekend
    action := "send_compliance_alert"
    priority := Priority.low }

/-- The initial processor state with the weekend rule added to the catalog. -/
def weekendState : ProcState :=
  { initState with business_rules := dictInsert "BRW" wkRule initState.business_rules }

/-- A context under which rule BR002 (`stock_level <= 5`) fires. -/
def lowStockCtx : Ctx := [("stock_level", PyVal.int 3)]

/-! ### Helper lemmas -/

theorem alookup_dictInsert_self {α : Type} (k : String) (v : α) (l : List (String × α)) :
    alookup k (dictInsert k v l) = some v := by
  induction l with
  | nil => simp [dictInsert, alookup]
  | cons h rest ih =>
      by_cases hk : k = h.1
      · simp [dictInsert, hk, alookup]
      · simp [dictInsert, hk, alookup, ih]

theorem alookup_dictInsert_ne {α : Type} (k k' : String) (v : α) (l : List (String × α))
    (h : k' ≠ k) : alookup k' (dictInsert k v l) = alookup k' l := by
  induction l with
  | nil => simp [dictInsert, alookup, h]
  | cons p rest ih =>
      by_cases hk : k = p.1
      · subst hk
        simp [dictInsert, alookup, h]
      · by_cases hk' : k' = p.1
        · simp [dictInsert, hk, alookup, hk']
        · simp [dictInsert, hk, alookup, hk', ih]

theorem createApprovalRequest_rules (st : ProcState) (now : Nat)
    (r : Option BusinessRule) (ctx : Ctx) :
    (createApprovalRequest st now r ctx).2.business_rules = st.business_rules := by
  cases r <;> rfl

theorem createApprovalRequest_config (st : ProcState) (now : Nat)
    (r : Option BusinessRule) (ctx : Ctx) :
    (createApprovalRequest st now r ctx).2.config = st.config := by
  cases r <;> rfl

theorem createApprovalRequest_tasks (st : ProcState) (now : Nat)
    (r : Option BusinessRule) (ctx : Ctx) :
    (createApprovalRequest st now r ctx).2.workflow_tasks = st.workflow_tasks := by
  cases r <;> rfl

theorem executeRuleAction_rules (st : ProcState) (now : Nat) (rule : BusinessRule)
    (ctx : Ctx) :
    (executeRuleAction st now rule ctx).2.business_rules = st.business_rules := by
  unfold executeRuleAction
  repeat' split
  all_goals rfl

theorem executeRuleAction_config (st : ProcState) (now : Nat) (rule : BusinessRule)
    (ctx : Ctx) :
    (executeRuleAction st now rule ctx).2.config = st.config := by
  unfold executeRuleAction
  repeat' split
  all_goals rfl

theorem evalBR_config (st : ProcState) (now : Nat) (rid : String) (ctx : Ctx) :
    (evaluateBusinessRule st now rid ctx).2.config = st.config := by
  unfold evaluateBusinessRule
  cases h : alookup rid st.business_rules with
  | none => rfl
  | some rule =>
      dsimp only
      by_cases he : rule.enabled = true
      · rw [if_pos he]
        by_cases hc : evaluateCondition st.config now rule.condition ctx = true
        · rw [if_pos hc]
          exact executeRuleAction_config ..
        · rw [if_neg hc]
      · rw [if_neg he]

theorem evalBR_rules_shape (st : ProcState) (now : Nat) (rid : String) (ctx : Ctx)
    (rid' : String) :
    alookup rid' (evaluateBusinessRule st now rid ctx).2.business_rules
      = alookup rid' st.business_rules
    ∨ (∃ r, alookup rid' st.business_rules = some r ∧
        alookup rid' (evaluateBusinessRule st now rid ctx).2.business_rules
          = some { r with last_executed := some now,
                          execution_count := r.execution_count + 1 }) := by
  unfold evaluateBusinessRule
  cases h : alookup rid st.business_rules with
  | none => left; rfl
  | some rule =>
      dsimp only
      by_cases he : rule.enabled = true
      · rw [if_pos he]
        by_cases hc : evaluateCondition st.config now rule.condition ctx = true
        · rw [if_pos hc]
          by_cases hr : rid' = rid
          · subst hr
            right
            refine ⟨rule, h, ?_⟩
            show alookup rid' (dictInsert rid' _ (executeRuleAction st now rule ctx).2.business_rules) = _
            rw [alookup_dictInsert_self]
          · left
            show alookup rid' (dictInsert rid _ (executeRuleAction st now rule ctx).2.business_rules) = _
            rw [alookup_dictInsert_ne _ _ _ _ hr, executeRuleAction_rules]
        · rw [if_neg hc]
          left; rfl
      · rw [if_neg he]
        left; rfl

theorem evalBR_rule_id (st : ProcState) (now : Nat) (rid : String) (ctx : Ctx) :
    (evaluateBusinessRule st now rid ctx).1.rule_id = rid := by
  unfold evaluateBusinessRule
  cases h : alookup rid st.business_rules with
  | none => rfl
  | some rule =>
      dsimp only
      by_cases he : rule.enabled = true
      · rw [if_pos he]
        by_cases hc : evaluateCondition st.config now rule.condition ctx = true
        · rw [if_pos hc]
        · rw [if_neg hc]
      · rw [if_neg he]

theorem evalBR_enabled_evaluated (st : ProcState) (now : Nat) (rid : String) (ctx : Ctx)
    (rule : BusinessRule) (h : alookup rid st.business_rules = some rule)
    (he : rule.enabled = true) :
    (evaluateBusinessRule st now rid ctx).1.evaluated = true := by
  unfold evaluateBusinessRule
  rw [h]
  dsimp only
  rw [if_pos he]
  by_cases hc : evaluateCondition st.config now rule.condition ctx = true
  · rw [if_pos hc]
  · rw [if_neg hc]

theorem evalExpr_noTimeDep (cfg : BizConfig) (n1 n2 : Nat) (e : PyExpr) (ctx : Ctx)
    (h : noTimeDep e = true) :
    evalExpr cfg n1 e ctx = evalExpr cfg n2 e ctx := by
  induction e with
  | lit v => rfl
  | var n => rfl
  | cmp op a b iha ihb =>
      simp only [noTimeDep, Bool.and_eq_true] at h
      simp only [evalExpr, iha h.1, ihb h.2]
  | and a b iha ihb =>
      simp only [noTimeDep, Bool.and_eq_true] at h
      simp only [evalExpr, iha h.1, ihb h.2]
  | or a b iha ihb =>
      simp only [noTimeDep, Bool.and_eq_true] at h
      simp only [evalExpr, iha h.1, ihb h.2]
  | not a iha =>
      simp only [noTimeDep] at h
      simp only [evalExpr, iha h]
  | isWeekend => exact absurd h (by simp [noTimeDep])
  | isSupervisor a iha =>
      simp only [noTimeDep] at h
      simp only [evalExpr, iha h]
  | isHighValue a iha =>
      simp only [noTimeDep] at h
      simp only [evalExpr, iha h]
  | daysBetween a b iha ihb =>
      simp only [noTimeDep, Bool.and_eq_true] at h
      simp only [evalExpr, iha h.1, ihb h.2]

theorem evaluateCondition_noTimeDep (cfg : BizConfig) (n1 n2 : Nat) (e : PyExpr)
    (ctx : Ctx) (h : noTimeDep e = true) :
    evaluateCondition cfg n1 e ctx = evaluateCondition cfg n2 e ctx := by
  unfold evaluateCondition
  rw [evalExpr_noTimeDep cfg n1 n2 e ctx h]

theorem execWFTask_rules (st : ProcState) (now : Nat) (task : WorkflowTask) (ctx : Ctx)
    (e : Bool) :
    (executeWorkflowTask st now task ctx e).2.business_rules = st.business_rules := by
  unfold executeWorkflowTask
  repeat' split
  all_goals first
    | rfl
    | exact createApprovalRequest_rules ..

theorem execWFTask_tasks (st : ProcState) (now : Nat) (task : WorkflowTask) (ctx : Ctx)
    (e : Bool) :
    (executeWorkflowTask st now task ctx e).2.workflow_tasks = st.workflow_tasks := by
  unfold executeWorkflowTask
  repeat' split
  all_goals first
    | rfl
    | exact createApprovalRequest_tasks ..

theorem execWFTask_config (st : ProcState) (now : Nat) (task : WorkflowTask) (ctx : Ctx)
    (e : Bool) :
    (executeWorkflowTask st now task ctx e).2.config = st.config := by
  unfold executeWorkflowTask
  repeat' split
  all_goals first
    | rfl
    | exact createApprovalRequest_config ..

theorem runTasks_rules (ts : List WorkflowTask) (st : ProcState) (now : Nat) (ctx : Ctx)
    (exc : String → Bool) (acc : WorkflowRunResult) :
    (runTasks st now ctx exc acc ts).2.business_rules = st.business_rules := by
  induction ts generalizing st acc with
  | nil => rfl
  | cons task rest ih =>
      unfold runTasks
      dsimp only
      by_cases h1 : (executeWorkflowTask st now task ctx (exc task.task_id)).1.status = "completed"
      · rw [if_pos h1, ih]
        exact execWFTask_rules ..
      · rw [if_neg h1]
        by_cases h2 : (executeWorkflowTask st now task ctx (exc task.task_id)).1.status = "failed"
        · rw [if_pos h2, ih]
          exact execWFTask_rules ..
        · rw [if_neg h2, ih]
          exact execWFTask_rules ..

theorem runTasks_error (ts : List WorkflowTask) (st : ProcState) (now : Nat) (ctx : Ctx)
    (exc : String → Bool) (acc : WorkflowRunResult) :
    (runTasks st now ctx exc acc ts).1.error = acc.error := by
  induction ts generalizing st acc with
  | nil => rfl
  | cons task rest ih =>
      unfold runTasks
      dsimp only
      by_cases h1 : (executeWorkflowTask st now task ctx (exc task.task_id)).1.status = "completed"
      · rw [if_pos h1, ih]
      · rw [if_neg h1]
        by_cases h2 : (executeWorkflowTask st now task ctx (exc task.task_id)).1.status = "failed"
        · rw [if_pos h2, ih]
        · rw [if_neg h2, ih]

theorem runTasks_counts (ts : List WorkflowTask) (st : ProcState) (now : Nat) (ctx : Ctx)
    (exc : String → Bool) (acc : WorkflowRunResult) :
    (runTasks st now ctx exc acc ts).1.tasks_executed.length
      + (runTasks st now ctx exc acc ts).1.tasks_pending.length
      + (runTasks st now ctx exc acc ts).1.tasks_failed.length
    = acc.tasks_executed.length + acc.tasks_pending.length + acc.tasks_failed.length
      + ts.length := by
  induction ts generalizing st acc with
  | nil => simp [runTasks]
  | cons task rest ih =>
      unfold runTasks
      dsimp only
      by_cases h1 : (executeWorkflowTask st now task ctx (exc task.task_id)).1.status = "completed"
      · rw [if_pos h1, ih]
        simp
        omega
      · rw [if_neg h1]
        by_cases h2 : (executeWorkflowTask st now task ctx (exc task.task_id)).1.status = "failed"
        · rw [if_pos h2, ih]
          simp
          omega
        · rw [if_neg h2, ih]
          simp
          omega

theorem runTasks_tasks_inv (ts : List WorkflowTask) (st : ProcState) (now : Nat)
    (ctx : Ctx) (exc : String → Bool) (acc : WorkflowRunResult) (tid : String)
    (t' : WorkflowTask)
    (h : alookup tid (runTasks st now ctx exc acc ts).2.workflow_tasks = some t') :
    alookup tid st.workflow_tasks = some t'
    ∨ t'.status = WorkflowStatus.completed ∨ t'.status = WorkflowStatus.failed := by
  induction ts generalizing st acc with
  | nil => exact Or.inl h
  | cons task rest ih =>
      unfold runTasks at h
      dsimp only at h
      by_cases h1 : (executeWorkflowTask st now task ctx (exc task.task_id)).1.status = "completed"
      · rw [if_pos h1] at h
        rcases ih _ _ h with hl | hr
        · by_cases ht : tid = task.task_id
          · subst ht
            rw [alookup_dictInsert_self] at hl
            right; left
            rw [(Option.some.injEq ..).mp hl.symm]
          · rw [alookup_dictInsert_ne _ _ _ _ ht, execWFTask_tasks] at hl
            exact Or.inl hl
        · exact Or.inr hr
      · rw [if_neg h1] at h
        by_cases h2 : (executeWorkflowTask st now task ctx (exc task.task_id)).1.status = "failed"
        · rw [if_pos h2] at h
          rcases ih _ _ h with hl | hr
          · by_cases ht : tid = task.task_id
            · subst ht
              rw [alookup_dictInsert_self] at hl
              right; right
              rw [(Option.some.injEq ..).mp hl.symm]
            · rw [alookup_dictInsert_ne _ _ _ _ ht, execWFTask_tasks] at hl
              exact Or.inl hl
          · exact Or.inr hr
        · rw [if_neg h2] at h
          rcases ih _ _ h with hl | hr
          · rw [execWFTask_tasks] at hl
            exact Or.inl hl
          · exact Or.inr hr

theorem insertByKey_length (t : WorkflowTask) (l : List WorkflowTask) :
    (insertByKey t l).length = l.length + 1 := by
  induction l with
  | nil => rfl
  | cons h rest ih =>
      unfold insertByKey
      by_cases hlt : t.dependencies.length < h.dependencies.length
      · rw [if_pos hlt]
        simp
      · rw [if_neg hlt]
        simp [ih]

theorem sortByDepCount_length (ts : List WorkflowTask) :
    (sortByDepCount ts).length = ts.length := by
  suffices hgen : ∀ acc : List WorkflowTask,
      (ts.foldl (fun acc t => insertByKey t acc) acc).length = acc.length + ts.length by
    simpa using hgen []
  induction ts with
  | nil => intro acc; simp
  | cons t rest ih =>
      intro acc
      simp only [List.foldl_cons, ih, insertByKey_length, List.length_cons]
      omega

theorem execWF_rules (st : ProcState) (now : Nat) (wid : String) (ctx : Ctx)
    (exc : String → Bool) :
    (executeWorkflow st now wid ctx exc).2.business_rules = st.business_rules := by
  unfold executeWorkflow
  dsimp only
  by_cases h : ((st.workflow_tasks.map Prod.snd).filter (fun t => t.workflow_id = wid)).isEmpty
  · rw [if_pos h]
  · rw [if_neg h]
    exact runTasks_rules ..

theorem execWF_counts (st : ProcState) (now : Nat) (wid : String) (ctx : Ctx)
    (exc : String → Bool) :
    (executeWorkflow st now wid ctx exc).1.tasks_executed.length
      + (executeWorkflow st now wid ctx exc).1.tasks_pending.length
      + (executeWorkflow st now wid ctx exc).1.tasks_failed.length
    = ((st.workflow_tasks.map Prod.snd).filter (fun t => t.workflow_id = wid)).length := by
  unfold executeWorkflow
  dsimp only
  by_cases h : ((st.workflow_tasks.map Prod.snd).filter (fun t => t.workflow_id = wid)).isEmpty
  · rw [if_pos h]
    rw [List.isEmpty_iff.mp h]
    rfl
  · rw [if_neg h]
    show (runTasks st now ctx exc _ _).1.tasks_executed.length + _ + _ = _
    rw [runTasks_counts]
    simp [sortByDepCount_length]

theorem execWF_tasks_inv (st : ProcState) (now : Nat) (wid : String) (ctx : Ctx)
    (exc : String → Bool) (tid : String) (t' : WorkflowTask)
    (h : alookup tid (executeWorkflow st now wid ctx exc).2.workflow_tasks = some t') :
    alookup tid st.workflow_tasks = some t'
    ∨ t'.status = WorkflowStatus.completed ∨ t'.status = WorkflowStatus.failed := by
  unfold executeWorkflow at h
  dsimp only at h
  by_cases hh : ((st.workflow_tasks.map Prod.snd).filter (fun t => t.workflow_id = wid)).isEmpty
  · rw [if_pos hh] at h
    exact Or.inl h
  · rw [if_neg hh] at h
    exact runTasks_tasks_inv _ _ _ _ _ _ _ _ h

theorem execCount_evalBR (st : ProcState) (now : Nat) (rid : String) (ctx : Ctx)
    (rid' : String) :
    execCount st rid' ≤ execCount (evaluateBusinessRule st now rid ctx).2 rid' := by
  rcases evalBR_rules_shape st now rid ctx rid' with heq | ⟨r, hr, hr'⟩
  · unfold execCount
    rw [heq]
  · unfold execCount
    rw [hr, hr']
    exact Nat.le_succ _

theorem execCount_processRuleList (ids : List String) (st : ProcState) (now : Nat)
    (ctx : Ctx) (rid' : String) :
    execCount st rid' ≤ execCount (processRuleList st now ids ctx).2 rid' := by
  induction ids generalizing st with
  | nil => exact Nat.le_refl _
  | cons rid rest ih =>
      unfold processRuleList
      dsimp only
      by_cases h : (alookup rid st.business_rules).isSome
      · rw [if_pos h]
        exact Nat.le_trans (execCount_evalBR st now rid ctx rid') (ih _)
      · rw [if_neg h]
        exact ih _

theorem execCount_applyOp (st : ProcState) (op : ProcOp) (rid' : String) :
    execCount st rid' ≤ execCount (applyOp st op) rid' := by
  cases op with
  | evalRule now rid ctx => exact execCount_evalBR ..
  | runWorkflow now wid ctx exc =>
      unfold applyOp execCount
      rw [execWF_rules]
  | processRules now ids ctx => exact execCount_processRuleList ..

theorem evalBR_preserves_rule (st : ProcState) (now : Nat) (rid0 : String) (ctx : Ctx)
    (rid : String) (rule : BusinessRule)
    (h : alookup rid st.business_rules = some rule) :
    ∃ rule2, alookup rid (evaluateBusinessRule st now rid0 ctx).2.business_rules = some rule2
      ∧ rule2.enabled = rule.enabled ∧ rule2.condition = rule.condition := by
  rcases evalBR_rules_shape st now rid0 ctx rid with heq | ⟨r, hr, hr'⟩
  · exact ⟨rule, heq.trans h, rfl, rfl⟩
  · have : r = rule := by
      rw [h] at hr
      exact (Option.some.injEq ..).mp hr.symm
    subst this
    exact ⟨_, hr', rfl, rfl⟩

theorem evalBR_condition_met (st : ProcState) (now : Nat) (rid : String) (ctx : Ctx)
    (rule : BusinessRule) (h : alookup rid st.business_rules = some rule)
    (he : rule.enabled = true) :
    (evaluateBusinessRule st now rid ctx).1.condition_met
      = some (evaluateCondition st.config now rule.condition ctx) := by
  unfold evaluateBusinessRule
  rw [h]
  dsimp only
  rw [if_pos he]
  by_cases hc : evaluateCondition st.config now rule.condition ctx = true
  · rw [if_pos hc]
  · rw [if_neg hc]

theorem execWF_status_failed (st : ProcState) (now : Nat) (wid : String) (ctx : Ctx)
    (exc : String → Bool)
    (h : (executeWorkflow st now wid ctx exc).1.tasks_failed ≠ []) :
    (executeWorkflow st now wid ctx exc).1.status = "failed" := by
  unfold executeWorkflow at h ⊢
  dsimp only at h ⊢
  by_cases hh : ((st.workflow_tasks.map Prod.snd).filter (fun t => t.workflow_id = wid)).isEmpty
  · rw [if_pos hh] at h
    exact absurd rfl h
  · rw [if_neg hh] at h ⊢
    by_cases hf : (runTasks st now ctx exc
        { workflow_id := wid, status := "running", context := ctx }
        (sortByDepCount ((st.workflow_tasks.map Prod.snd).filter
          (fun t => t.workflow_id = wid)))).1.tasks_failed.isEmpty
    · exact absurd (List.isEmpty_iff.mp hf) h
    · show (if (runTasks ..).1.tasks_failed.isEmpty = true then _ else "failed") = "failed"
      rw [if_neg hf]

/-- Claim C7: in every batch evaluation of a list of rule ids against one
context, an evaluation error in one rule never prevents the remaining rules
from being evaluated: every rule of the batch that is present in the
catalog yields a result carrying its id, and whenever that rule is enabled
the result has `evaluated = true` — independent of what any other rule in
the batch did. -/
theorem c7_batch_isolation (ids : List String) (st : ProcState) (now : Nat)
    (ctx : Ctx) (rid : String) (rule : BusinessRule)
    (hmem : rid ∈ ids) (h : alookup rid st.business_rules = some rule) :
    ∃ r, r ∈ (processRuleList st now ids ctx).1 ∧ r.rule_id = rid
      ∧ (rule.enabled = true → r.evaluated = true) := by
  induction ids generalizing st rule with
  | nil => exact absurd hmem (List.not_mem_nil rid)
  | cons rid0 rest ih =>
      unfold processRuleList
      dsimp only
      rcases List.mem_cons.mp hmem with heq | htail
      · subst heq
        rw [if_pos (by rw [h]; rfl)]
        refine ⟨(evaluateBusinessRule st now rid ctx).1, List.mem_cons_self .., ?_, ?_⟩
        · exact evalBR_rule_id ..
        · intro he
          exact evalBR_enabled_evaluated st now rid ctx rule h he
      · by_cases h0 : (alookup rid0 st.business_rules).isSome
        · rw [if_pos h0]
          rcases evalBR_preserves_rule st now rid0 ctx rid rule h with ⟨rule2, h2, hen, _⟩
          rcases ih _ rule2 htail h2 with ⟨r, hrmem, hrid, hev⟩
          refine ⟨r, List.mem_cons_of_mem _ hrmem, hrid, ?_⟩
          intro he
          exact hev (by rw [hen, he])
        · rw [if_neg h0]
          exact ih st rule htail h

/-! ### Claims -/

/-- Claim C8: for every business rule, its execution count is monotonically
non-decreasing across every state-changing operation of the processor
(single rule evaluation, workflow execution, batch rule processing) — no
operation ever decreases or resets a rule's `execution_count`. -/
theorem c8_execution_count_monotone (ops : List ProcOp) (st : ProcState) (rid : String) :
    execCount st rid ≤ execCount (applyOps st ops) rid := by
  induction ops generalizing st with
  | nil => exact Nat.le_refl _
  | cons op rest ih => exact Nat.le_trans (execCount_applyOp st op rid) (ih _)

/-- Claim C9: condition evaluation is total and never propagates an
exception to its caller: whenever the internal evaluation of an enabled
rule's condition raises an error, `evaluate_business_rule` still reports
`evaluated = true` with `condition_met = false`, sets no error field,
triggers no action, and changes nothing in the state except appending the
result to the rule execution history — at the public interface an erroring
condition is indistinguishable from a condition that evaluated to false. -/
theorem c9_condition_error_indistinguishable_from_false (st : ProcState) (now : Nat)
    (rid : String) (ctx : Ctx) (rule : BusinessRule) (err : PyErr)
    (h : alookup rid st.business_rules = some rule)
    (he : rule.enabled = true)
    (herr : evalExpr st.config now rule.condition ctx = Except.error err) :
    (evaluateBusinessRule st now rid ctx).1.evaluated = true
    ∧ (evaluateBusinessRule st now rid ctx).1.condition_met = some false
    ∧ (evaluateBusinessRule st now rid ctx).1.error = none
    ∧ (evaluateBusinessRule st now rid ctx).1.actions_triggered = []
    ∧ (evaluateBusinessRule st now rid ctx).2
        = { st with rule_execution_history :=
              st.rule_execution_history ++ [(evaluateBusinessRule st now rid ctx).1] } := by
  have hc : evaluateCondition st.config now rule.condition ctx = false := by
    unfold evaluateCondition
    rw [herr]
  unfold evaluateBusinessRule
  rw [h]
  dsimp only
  rw [if_pos he, hc]
  simp only [Bool.false_eq_true, if_false]
  exact ⟨trivial, trivial, trivial, trivial, trivial⟩

/-- Witness for C9: rule BR002 (`stock_level <= 5`) evaluated against the
empty context — the lookup of `stock_level` raises a NameError internally,
yet the public result is an errorless `condition_met = false`. -/
theorem c9_condition_error_indistinguishable_from_false_witness :
    (evaluateBusinessRule initState 0 "BR002" []).1.evaluated = true
    ∧ (evaluateBusinessRule initState 0 "BR002" []).1.condition_met = some false
    ∧ (evaluateBusinessRule initState 0 "BR002" []).1.error = none
    ∧ (evaluateBusinessRule initState 0 "BR002" []).1.actions_triggered = []
    ∧ (evaluateBusinessRule initState 0 "BR002" []).2
        = { initState with rule_execution_history :=
              initState.rule_execution_history
                ++ [(evaluateBusinessRule initState 0 "BR002" []).1] } :=
  c9_condition_error_indistinguishable_from_false initState 0 "BR002" []
    ruleBR002 (PyErr.nameErr "stock_level") (by decide) (by decide) (by rfl)

/-- Claim C10: evaluating a rule id that is not in the catalog returns a
result with `evaluated = false` and an error message, and leaves the whole
processor state unchanged: no history entry, no approval request, no
execution-count or last-executed change. -/
theorem c10_unknown_rule_error_and_frame (st : ProcState) (now : Nat) (rid : String)
    (ctx : Ctx) (h : alookup rid st.business_rules = none) :
    evaluateBusinessRule st now rid ctx
      = ({ rule_id := rid, evaluated := false,
           error := some ("Business rule " ++ rid ++ " not found") }, st) := by
  unfold evaluateBusinessRule
  rw [h]

/-- Witness for C10: the unknown rule id BR999 against the freshly
initialised processor. -/
theorem c10_unknown_rule_error_and_frame_witness :
    evaluateBusinessRule initState 0 "BR999" []
      = ({ rule_id := "BR999", evaluated := false,
           error := some ("Business rule BR999 not found") }, initState) := by
  have h := c10_unknown_rule_error_and_frame initState 0 "BR999" [] (by decide)
  simpa using h

/-- Witness for C7: the batch [BR004, BR002] against a context in which
BR004's condition raises a NameError internally (its variables are absent)
while BR002 is present and enabled — BR002 still yields `evaluated = true`. -/
theorem c7_batch_isolation_witness :
    ∃ r, r ∈ (processRuleList initState 0 ["BR004", "BR002"] lowStockCtx).1
      ∧ r.rule_id = "BR002" ∧ (ruleBR002.enabled = true → r.evaluated = true) :=
  c7_batch_isolation ["BR004", "BR002"] initState 0 lowStockCtx "BR002" ruleBR002
    (by decide) (by decide)

/-- Counterexample to claim C6 as stated: a rule whose condition is
`is_weekend()` evaluated twice against the identical (empty) context — once
on a Friday (day 4), once on the following Saturday (day 5), the second
evaluation starting from the exact state left by the first — yields two
different `condition_met` values, so rule evaluation is not a function of
rule and context alone. -/
theorem c6_is_weekend_rule_nondeterministic :
    (evaluateBusinessRule weekendState 4 "BRW" []).1.condition_met = some false
    ∧ (evaluateBusinessRule (evaluateBusinessRule weekendState 4 "BRW" []).2
        5 "BRW" []).1.condition_met = some true := by
  decide

/-- Claim C6 (amended): rule evaluation is a deterministic function of the
rule, the context, and the evaluation clock; for every enabled rule whose
condition does not call the clock-reading predicate `is_weekend()` — which
includes all eight built-in rules — re-evaluating the same rule against an
identical context, starting from the state produced by the first
evaluation, yields the same `condition_met` value: the state mutated by an
evaluation (execution counts, last-executed stamps, approvals, history)
carries no hidden input of condition evaluation. -/
theorem c6_amended_deterministic_without_clock (st : ProcState) (now1 now2 : Nat)
    (rid : String) (ctx : Ctx) (rule : BusinessRule)
    (h : alookup rid st.business_rules = some rule)
    (he : rule.enabled = true)
    (hnd : noTimeDep rule.condition = true) :
    (evaluateBusinessRule (evaluateBusinessRule st now1 rid ctx).2
        now2 rid ctx).1.condition_met
      = (evaluateBusinessRule st now1 rid ctx).1.condition_met := by
  rcases evalBR_preserves_rule st now1 rid ctx rid rule h with ⟨rule2, h2, hen, hcond⟩
  rw [evalBR_condition_met st now1 rid ctx rule h he]
  rw [evalBR_condition_met _ now2 rid ctx rule2 h2 (by rw [hen, he])]
  rw [hcond, evalBR_config]
  rw [evaluateCondition_noTimeDep st.config now2 now1 rule.condition ctx hnd]

/-- Witness for the amended C6: BR002 evaluated twice against the same
low-stock context, on two different days. -/
theorem c6_amended_deterministic_without_clock_witness :
    (evaluateBusinessRule (evaluateBusinessRule initState 0 "BR002" lowStockCtx).2
        1 "BR002" lowStockCtx).1.condition_met
      = (evaluateBusinessRule initState 0 "BR002" lowStockCtx).1.condition_met :=
  c6_amended_deterministic_without_clock initState 0 1 "BR002" lowStockCtx ruleBR002
    (by decide) (by decide) (by decide)

/-- Counterexample to claim C4 as stated: rule BR002's condition
`stock_level <= 5` evaluated against a context lacking `stock_level` — the
internal evaluation does raise NameError, but the engine does not fail
with an UnknownVariable error: `_evaluate_condition` returns `False` and
the public result reports `condition_met = false` with no error field. -/
theorem c4_missing_variable_yields_false_not_error :
    evalExpr initState.config 0 ruleBR002.condition [("item_name", PyVal.str "Bolt")]
      = Except.error (PyErr.nameErr "stock_level")
    ∧ evaluateCondition initState.config 0 ruleBR002.condition
        [("item_name", PyVal.str "Bolt")] = false
    ∧ (evaluateBusinessRule initState 0 "BR002"
        [("item_name", PyVal.str "Bolt")]).1.error = none
    ∧ (evaluateBusinessRule initState 0 "BR002"
        [("item_name", PyVal.str "Bolt")]).1.condition_met = some false :=
  ⟨rfl, by decide, by decide, by decide⟩

/-- Claim C4 (amended): a reference to a variable absent from the context
does raise NameError inside the evaluator, but `_evaluate_condition`
catches every evaluation error and returns `False` — the condition
silently yields a boolean result instead of surfacing an UnknownVariable
error. -/
theorem c4_amended_name_error_caught (cfg : BizConfig) (now : Nat) (ctx : Ctx)
    (name : String) (e : PyExpr) (err : PyErr)
    (h1 : alookup name ctx = none)
    (h2 : evalExpr cfg now e ctx = Except.error err) :
    evalExpr cfg now (PyExpr.var name) ctx = Except.error (PyErr.nameErr name)
    ∧ evaluateCondition cfg now e ctx = false := by
  constructor
  · simp [evalExpr, h1]
  · unfold evaluateCondition
    rw [h2]

/-- Witness for the amended C4: BR006's condition against the empty
context. -/
theorem c4_amended_name_error_caught_witness :
    evalExpr defaultConfig 0 (PyExpr.var "compliance_percentage") []
      = Except.error (PyErr.nameErr "compliance_percentage")
    ∧ evaluateCondition defaultConfig 0 ruleBR006.condition [] = false :=
  c4_amended_name_error_caught defaultConfig 0 [] "compliance_percentage"
    ruleBR006.condition (PyErr.nameErr "compliance_percentage") (by decide) (by rfl)

/-- Counterexample to claim C3 as stated: a template whose two tasks form a
dependency cycle is stored without complaint, and executing a workflow
instance from it succeeds — both tasks run to completion, the run reports
status `completed`, and no CyclicDependencyError (or any error) is
raised. -/
theorem c3_cyclic_template_accepted_and_executed :
    (alookup "CYC_A" cycState.workflow_tasks).map (fun t => t.dependencies) = some ["CYC_B"]
    ∧ (alookup "CYC_B" cycState.workflow_tasks).map (fun t => t.dependencies) = some ["CYC_A"]
    ∧ cycRun.1.status = "completed"
    ∧ cycRun.1.error = none
    ∧ cycRun.1.tasks_executed.map (fun r => r.task_id) = ["CYC_A", "CYC_B"] := by
  decide

/-- Claim C3 (amended): the engine performs no cycle validation at all —
templates are stored by plain dict insertion, and the only error
`execute_workflow` can ever report is "no tasks found"; in particular no
`CyclicDependencyError` exists, and a cyclic template executes like any
other (its tasks run in ascending dependency-count order). -/
theorem c3_amended_no_cycle_validation (st : ProcState) (now : Nat) (wid : String)
    (ctx : Ctx) (exc : String → Bool) :
    (executeWorkflow st now wid ctx exc).1.error = none
    ∨ (executeWorkflow st now wid ctx exc).1.error
        = some ("No tasks found for workflow " ++ wid) := by
  unfold executeWorkflow
  dsimp only
  by_cases h : ((st.workflow_tasks.map Prod.snd).filter (fun t => t.workflow_id = wid)).isEmpty
  · rw [if_pos h]
    right; rfl
  · rw [if_neg h]
    left
    show (runTasks st now ctx exc _ _).1.error = none
    rw [runTasks_error]

/-- Claim C1, evaluated at the failing input: in a plain run of the
inventory-reorder workflow, task 004 is executed (it receives a result)
in the same run in which its sole dependency 003 never leaves `Pending`,
and task 005 is executed to completion although its sole dependency 004
never reaches `Completed` — the dependency check of the source is a no-op
`pass`, so tasks run regardless of their dependencies' status. -/
theorem c1_task_executed_with_incomplete_dependency :
    (alookup "WF_INVENTORY_REORDER_004" initState.workflow_tasks).map
        (fun t => t.dependencies) = some ["WF_INVENTORY_REORDER_003"]
    ∧ (alookup "WF_INVENTORY_REORDER_005" initState.workflow_tasks).map
        (fun t => t.dependencies) = some ["WF_INVENTORY_REORDER_004"]
    ∧ reorderRun.1.tasks_pending.map (fun r => r.task_id)
        = ["WF_INVENTORY_REORDER_003", "WF_INVENTORY_REORDER_004"]
    ∧ reorderRun.1.tasks_executed.map (fun r => r.task_id)
        = ["WF_INVENTORY_REORDER_001", "WF_INVENTORY_REORDER_002",
           "WF_INVENTORY_REORDER_005"]
    ∧ (alookup "WF_INVENTORY_REORDER_003" reorderRun.2.workflow_tasks).map
        (fun t => t.status) = some WorkflowStatus.pending
    ∧ (alookup "WF_INVENTORY_REORDER_004" reorderRun.2.workflow_tasks).map
        (fun t => t.status) = some WorkflowStatus.pending
    ∧ (alookup "WF_INVENTORY_REORDER_005" reorderRun.2.workflow_tasks).map
        (fun t => t.status) = some WorkflowStatus.completed := by
  decide

/-- Counterexample to claim C2 as stated: in a run of the inventory-reorder
workflow in which the first task fails, its direct dependent (task 002) is
still executed and finishes `Completed`, no task anywhere is `Cancelled`,
and the later tasks of the chain run as well — only the "instance status
becomes Failed" half of the claim holds. -/
theorem c2_failed_task_dependents_not_cancelled :
    (alookup "WF_INVENTORY_REORDER_002" initState.workflow_tasks).map
        (fun t => t.dependencies) = some ["WF_INVENTORY_REORDER_001"]
    ∧ reorderFailRun.1.tasks_failed.map (fun r => r.task_id)
        = ["WF_INVENTORY_REORDER_001"]
    ∧ reorderFailRun.1.status = "failed"
    ∧ reorderFailRun.1.tasks_executed.map (fun r => r.task_id)
        = ["WF_INVENTORY_REORDER_002", "WF_INVENTORY_REORDER_005"]
    ∧ (alookup "WF_INVENTORY_REORDER_002" reorderFailRun.2.workflow_tasks).map
        (fun t => t.status) = some WorkflowStatus.completed
    ∧ (reorderFailRun.2.workflow_tasks.map (fun p => p.2.status)).all
        (fun s => !(s = WorkflowStatus.cancelled)) = true := by
  decide

/-- Claim C2 (amended): when any task of a run fails, the instance's
overall status does become `failed`; but the failed task's transitive
dependents are not cancelled — every task of the workflow is still
executed (each receives exactly one result in the same run), and no stored
task ever transitions to `Cancelled`. -/
theorem c2_amended_failure_no_cancellation (st : ProcState) (now : Nat) (wid : String)
    (ctx : Ctx) (exc : String → Bool) (tid : String) (t : WorkflowTask)
    (hfail : (executeWorkflow st now wid ctx exc).1.tasks_failed ≠ [])
    (ht : alookup tid st.workflow_tasks = some t)
    (hnc : t.status ≠ WorkflowStatus.cancelled) :
    (executeWorkflow st now wid ctx exc).1.status = "failed"
    ∧ (∀ t', alookup tid (executeWorkflow st now wid ctx exc).2.workflow_tasks = some t' →
        t'.status ≠ WorkflowStatus.cancelled)
    ∧ (executeWorkflow st now wid ctx exc).1.tasks_executed.length
        + (executeWorkflow st now wid ctx exc).1.tasks_pending.length
        + (executeWorkflow st now wid ctx exc).1.tasks_failed.length
      = ((st.workflow_tasks.map Prod.snd).filter (fun u => u.workflow_id = wid)).length := by
  refine ⟨execWF_status_failed st now wid ctx exc hfail, ?_, execWF_counts ..⟩
  intro t' h'
  rcases execWF_tasks_inv st now wid ctx exc tid t' h' with hl | hc | hf
  · rw [ht] at hl
    rw [(Option.some.injEq ..).mp hl.symm]
    exact hnc
  · rw [hc]
    decide
  · rw [hf]
    decide

/-- Witness for the amended C2: the inventory-reorder run in which the
first task fails; task 002 ends `Completed`, not `Cancelled`, and all five
tasks received a result. -/
theorem c2_amended_failure_no_cancellation_witness :
    reorderFailRun.1.status = "failed"
    ∧ ({ taskREO2 with
          status := WorkflowStatus.completed,
          completed_date := some 0 } : WorkflowTask).status ≠ WorkflowStatus.cancelled
    ∧ reorderFailRun.1.tasks_executed.length + reorderFailRun.1.tasks_pending.length
        + reorderFailRun.1.tasks_failed.length
      = ((initState.workflow_tasks.map Prod.snd).filter
          (fun u => u.workflow_id = "WF_INVENTORY_REORDER")).length := by
  have h := c2_amended_failure_no_cancellation initState 0 "WF_INVENTORY_REORDER" []
    failMonitor "WF_INVENTORY_REORDER_002" taskREO2 (by decide) (by decide) (by decide)
  exact ⟨h.1, h.2.1 _ (by decide), h.2.2⟩

/-- Counterexample to claim C5 as stated: the "Budget Approval" task of the
inventory-reorder workflow is an approval task; running the workflow gives
it a `'pending'` result, its stored status stays `Pending` — it never
becomes `OnHold` — and the branch is not suspended: the downstream tasks
004 and 005 are executed in the very same run, with no resume call
involved. -/
theorem c5_approval_stays_pending_branch_continues :
    taskREO3.task_type = "approval"
    ∧ (executeWorkflowTask initState 0 taskREO3 [] false).1.status = "pending"
    ∧ (alookup "WF_INVENTORY_REORDER_003" reorderRun.2.workflow_tasks).map
        (fun t => t.status) = some WorkflowStatus.pending
    ∧ reorderRun.1.tasks_pending.map (fun r => r.task_id)
        = ["WF_INVENTORY_REORDER_003", "WF_INVENTORY_REORDER_004"]
    ∧ reorderRun.1.tasks_executed.map (fun r => r.task_id)
        = ["WF_INVENTORY_REORDER_001", "WF_INVENTORY_REORDER_002",
           "WF_INVENTORY_REORDER_005"] := by
  decide

/-- Claim C5 (amended): an approval or procurement task yields a
`'pending'` task result and suspends nothing: its stored status is left as
it was (never set to `OnHold` — the executor only ever assigns `Completed`
or `Failed`), and every task of the workflow is still executed in the same
run (each receives exactly one result); no resume operation exists. -/
theorem c5_amended_pending_not_onhold_no_suspension (st : ProcState) (now : Nat)
    (wid : String) (ctx : Ctx) (exc : String → Bool) (task : WorkflowTask)
    (tid : String) (t : WorkflowTask)
    (hty : task.task_type = "approval" ∨ task.task_type = "procurement")
    (ht : alookup tid st.workflow_tasks = some t)
    (hnh : t.status ≠ WorkflowStatus.on_hold) :
    (executeWorkflowTask st now task ctx false).1.status = "pending"
    ∧ (∀ t', alookup tid (executeWorkflow st now wid ctx exc).2.workflow_tasks = some t' →
        t'.status ≠ WorkflowStatus.on_hold)
    ∧ (executeWorkflow st now wid ctx exc).1.tasks_executed.length
        + (executeWorkflow st now wid ctx exc).1.tasks_pending.length
        + (executeWorkflow st now wid ctx exc).1.tasks_failed.length
      = ((st.workflow_tasks.map Prod.snd).filter (fun u => u.workflow_id = wid)).length := by
  refine ⟨?_, ?_, execWF_counts ..⟩
  · rcases hty with h | h <;> simp [executeWorkflowTask, h]
  · intro t' h'
    rcases execWF_tasks_inv st now wid ctx exc tid t' h' with hl | hc | hf
    · rw [ht] at hl
      rw [(Option.some.injEq ..).mp hl.symm]
      exact hnh
    · rw [hc]
      decide
    · rw [hf]
      decide

/-- Witness for the amended C5: the "Budget Approval" task in a plain run
of the inventory-reorder workflow. -/
theorem c5_amended_pending_not_onhold_no_suspension_witness :
    (executeWorkflowTask initState 0 taskREO3 [] false).1.status = "pending"
    ∧ taskREO3.status ≠ WorkflowStatus.on_hold
    ∧ reorderRun.1.tasks_executed.length + reorderRun.1.tasks_pending.length
        + reorderRun.1.tasks_failed.length
      = ((initState.workflow_tasks.map Prod.snd).filter
          (fun u => u.workflow_id = "WF_INVENTORY_REORDER")).length := by
  have h := c5_amended_pending_not_onhold_no_suspension initState 0 "WF_INVENTORY_REORDER"
    [] noExc taskREO3 "WF_INVENTORY_REORDER_003" taskREO3 (Or.inl rfl) (by decide) (by decide)
  exact ⟨h.1, h.2.1 taskREO3 (by decide), h.2.2⟩
